import Mathlib

/- Verification development for the weather-dashboard repository.
   JavaScript numbers are modelled as rationals; Math.round is floor of x + 1/2,
   which matches the JS semantics of rounding half toward positive infinity. -/

namespace WeatherDash

/-- Model of JS Math.round: round half toward positive infinity,
i.e. the floor of x + 1/2 (stated computably via Rat.floor). -/
def jsRound (x : ℚ) : Int := Rat.floor (x + 1/2)

/-- jsRound is the floor of x + 1/2. -/
theorem jsRound_eq_floor (x : ℚ) : jsRound x = ⌊x + 1/2⌋ :=
  (Rat.floor_def' _).trans Rat.floor_def.symm

/-- Temperature unit as in the `useState` of every variant: the two-valued type C | F. -/
inductive TempUnit where
  | C : TempUnit
  | F : TempUnit
deriving DecidableEq

/-- `convertTemp` of the OpenWeatherMap and first Open-Meteo variant:
`if (to === F) return Math.round((temp * 9/5) + 32); return temp;`.
The source name of the second parameter is `to`. -/
def convertTemp (temp : ℚ) (u : TempUnit) : ℚ :=
  match u with
  | .F => (jsRound (temp * 9 / 5 + 32) : ℚ)
  | .C => temp

/-- `convertTemp` of the hourly-chart variant: same body, but the unit is read
from component state rather than passed as the second argument. -/
def convertTempH (u : TempUnit) (temp : ℚ) : ℚ :=
  if u = .F then (jsRound (temp * 9 / 5 + 32) : ℚ) else temp

/-- `getWeatherDescription` of the first Open-Meteo variant. -/
def getWeatherDescription (temp humidity : ℚ) : String :=
  if humidity > 80 then "Humid"
  else if temp > 30 then "Hot"
  else if temp < 10 then "Cold"
  else "Moderate"

/-- `getIconCode` of the first Open-Meteo variant. -/
def getIconCode (temp humidity : ℚ) : String :=
  if humidity > 80 then "09d"
  else if temp > 30 then "01d"
  else if temp < 10 then "13d"
  else "02d"

/-- `getWeatherDescription` of the hourly-chart variant (different labels, same bands). -/
def getWeatherDescriptionH (temp humidity : ℚ) : String :=
  if humidity > 80 then "Overcast Clouds"
  else if temp > 30 then "Clear Sky"
  else if temp < 10 then "Few Clouds"
  else "Scattered Clouds"

/-- Result of one network step, as seen by the surrounding try/catch:
either the response was ok and its JSON parsed to `data`, or the response
arrived with a non-ok HTTP status, or fetch / json threw an `Error`
carrying a message. -/
inductive Resp (α : Type) where
  | ok (data : α) : Resp α
  | httpError (status : Nat) : Resp α
  | netError (msg : String) : Resp α

/-- JS string-includes: substring containment, recursion on the scanned list. -/
def containsAux (pat : List Char) : List Char → Bool
  | [] => pat.isEmpty
  | c :: rest => pat.isPrefixOf (c :: rest) || containsAux pat rest

/-- `s.includes(pat)` of JS, on the character lists of the two strings. -/
def jsIncludes (s pat : String) : Bool := containsAux pat.toList s.toList

/-- The `Weather` interface shared by the OpenWeatherMap variant and the first
Open-Meteo variant. All numeric fields are kept as rationals; fields the code
rounds hold integer-valued rationals produced by jsRound. -/
structure Weather where
  city : String
  temp : ℚ
  feelsLike : ℚ
  tempMin : ℚ
  tempMax : ℚ
  humidity : ℚ
  windSpeed : ℚ
  windDeg : ℚ
  pressure : ℚ
  visibility : ℚ
  description : String
  icon : String
  sunrise : ℚ
  sunset : ℚ
deriving DecidableEq

/-- The `ForecastDay` interface of the OpenWeatherMap variant. -/
structure ForecastDay where
  date : String
  temp : ℚ
  icon : String
  description : String
  humidity : ℚ
deriving DecidableEq

/-- `main` object of an OpenWeatherMap current-weather response. -/
structure OwmMain where
  temp : ℚ
  feels_like : ℚ
  temp_min : ℚ
  temp_max : ℚ
  humidity : ℚ
  pressure : ℚ

/-- `wind` object of an OpenWeatherMap response. -/
structure OwmWind where
  speed : ℚ
  deg : ℚ

/-- `weather[0]` object of an OpenWeatherMap response. -/
structure OwmCond where
  description : String
  icon : String

/-- `sys` object of an OpenWeatherMap response. -/
structure OwmSys where
  sunrise : ℚ
  sunset : ℚ

/-- An OpenWeatherMap current-weather response body (the fields the code reads). -/
structure OwmCurrentResp where
  name : String
  main : OwmMain
  wind : OwmWind
  visibility : ℚ
  weather0 : OwmCond
  sys : OwmSys

/-- One entry of `forecastData.list` in the OpenWeatherMap 5-day forecast
response; the nested `main.temp`, `weather[0].icon`, `weather[0].description`
and `main.humidity` fields the code reads are flattened into one record. -/
structure OwmForecastItem where
  dt_txt : String
  dt : Int
  temp : ℚ
  icon : String
  description : String
  humidity : ℚ

/-- Display state of the OpenWeatherMap variant (its `useState` hooks). -/
structure StateV1 where
  weather : Option Weather
  forecast : List ForecastDay
  loading : Bool
  error : String
  lastUpdated : String
deriving DecidableEq

/-- The `setWeather({...})` mapping of the OpenWeatherMap variant: temperatures
and wind speed are passed through Math.round; humidity, wind direction and
pressure are transcribed verbatim; visibility is divided by 1000. -/
def owmToWeather (d : OwmCurrentResp) : Weather where
  city := d.name
  temp := (jsRound d.main.temp : ℚ)
  feelsLike := (jsRound d.main.feels_like : ℚ)
  tempMin := (jsRound d.main.temp_min : ℚ)
  tempMax := (jsRound d.main.temp_max : ℚ)
  humidity := d.main.humidity
  windSpeed := (jsRound d.wind.speed : ℚ)
  windDeg := d.wind.deg
  pressure := d.main.pressure
  visibility := d.visibility / 1000
  description := d.weather0.description
  icon := d.weather0.icon
  sunrise := d.sys.sunrise
  sunset := d.sys.sunset

/-- The selection step of the OpenWeatherMap forecast processing:
`.filter(item => item.dt_txt.includes(12:00:00)).slice(0, 5)`. -/
def owmSelectForecast (l : List OwmForecastItem) : List OwmForecastItem :=
  (l.filter fun item => jsIncludes item.dt_txt "12:00:00").take 5

/-- The per-item mapping of the OpenWeatherMap forecast processing; `dfmt`
abstracts `new Date(dt * 1000).toLocaleDateString(...)`. -/
def owmForecastEntry (dfmt : Int → String) (item : OwmForecastItem) : ForecastDay where
  date := dfmt item.dt
  temp := (jsRound item.temp : ℚ)
  icon := item.icon
  description := item.description
  humidity := item.humidity

/-- `dailyForecast` of the OpenWeatherMap variant: filter to the 12:00:00
entries, keep the first five, map to ForecastDay. -/
def processOwmForecast (dfmt : Int → String) (l : List OwmForecastItem) : List ForecastDay :=
  (owmSelectForecast l).map (owmForecastEntry dfmt)

/-- One run of `fetchWeather` of the OpenWeatherMap variant, as a function of
the city string, the outcomes of the two requests, the date formatter, the
current locale time string, and the state before the call. Returns the state
after the call together with the number of requests issued. There is no
empty-city guard in this variant; the catch block sets the fixed error message
and does not touch the weather state. -/
def fetchWeatherOwm (city : String) (current : Resp OwmCurrentResp)
    (forecastResp : Resp (List OwmForecastItem)) (dfmt : Int → String)
    (nowStr : String) (st : StateV1) : StateV1 × Nat :=
  let st1 : StateV1 := { st with loading := true, error := "" }
  match current with
  | .ok data =>
    let st2 : StateV1 := { st1 with weather := some (owmToWeather data), lastUpdated := nowStr }
    match forecastResp with
    | .ok l => ({ st2 with forecast := processOwmForecast dfmt l, loading := false }, 2)
    | _ => ({ st2 with
              error := "Failed to fetch weather data. Please try again.",
              loading := false }, 2)
  | _ => ({ st1 with
            error := "Failed to fetch weather data. Please try again.",
            loading := false }, 1)

/-- The `GeocodingResult` interface of the Open-Meteo variants. -/
structure GeocodingResult where
  id : Int
  name : String
  latitude : ℚ
  longitude : ℚ
  country : String
  admin1 : Option String

/-- `data.current` of an Open-Meteo forecast response. -/
structure MeteoCurrent where
  temperature_2m : ℚ
  relative_humidity_2m : ℚ
  apparent_temperature : ℚ
  wind_speed_10m : ℚ
  wind_direction_10m : ℚ
  pressure_msl : ℚ

/-- `data.daily` of the first Open-Meteo variant (the fields it reads). -/
structure MeteoDailyV2 where
  temperature_2m_max : List ℚ
  temperature_2m_min : List ℚ

/-- Open-Meteo response body read by the first Open-Meteo variant. -/
structure MeteoRespV2 where
  current : MeteoCurrent
  daily : MeteoDailyV2

/-- Display state of the Open-Meteo variants without the hourly chart. -/
structure StateM where
  weather : Option Weather
  loading : Bool
  error : String
  lastUpdated : String
deriving DecidableEq

/-- The `setWeather({...})` mapping of the first Open-Meteo variant. The code
indexes the daily arrays at 0; that access is modelled by headD (the arrays of
a well-formed response are non-empty). Everything numeric except humidity is
passed through Math.round; visibility is the constant 10; sunrise and sunset
are the constant 0; description and icon come from the threshold banding on
the raw (unrounded) current temperature and humidity. -/
def meteoToWeather (loc : GeocodingResult) (data : MeteoRespV2) : Weather where
  city := loc.name ++ ", " ++ loc.country
  temp := (jsRound data.current.temperature_2m : ℚ)
  feelsLike := (jsRound data.current.apparent_temperature : ℚ)
  tempMin := (jsRound (data.daily.temperature_2m_min.headD 0) : ℚ)
  tempMax := (jsRound (data.daily.temperature_2m_max.headD 0) : ℚ)
  humidity := data.current.relative_humidity_2m
  windSpeed := (jsRound data.current.wind_speed_10m : ℚ)
  windDeg := (jsRound data.current.wind_direction_10m : ℚ)
  pressure := (jsRound data.current.pressure_msl : ℚ)
  visibility := 10
  description := getWeatherDescription data.current.temperature_2m data.current.relative_humidity_2m
  icon := getIconCode data.current.temperature_2m data.current.relative_humidity_2m
  sunrise := 0
  sunset := 0

/-- One run of `fetchWeather` of the first Open-Meteo variant: the empty-city
guard returns before anything happens; a non-ok geocoding response or an empty
result list throws City not found; a non-ok weather response throws the fixed
failure message; the catch records the thrown message and clears the weather
state to null. Returns the new state and the number of requests issued. -/
def fetchWeatherMeteo (city : String) (geo : Resp (List GeocodingResult))
    (wx : Resp MeteoRespV2) (nowStr : String) (st : StateM) : StateM × Nat :=
  if city = "" then (st, 0)
  else
    let st1 : StateM := { st with loading := true, error := "" }
    match geo with
    | .httpError _ =>
      ({ st1 with error := "City not found", weather := none, loading := false }, 1)
    | .netError m =>
      ({ st1 with error := m, weather := none, loading := false }, 1)
    | .ok results =>
      match results with
      | [] => ({ st1 with error := "City not found", weather := none, loading := false }, 1)
      | loc :: _ =>
        match wx with
        | .httpError _ =>
          ({ st1 with
             error := "Failed to fetch weather data",
             weather := none,
             loading := false }, 2)
        | .netError m =>
          ({ st1 with error := m, weather := none, loading := false }, 2)
        | .ok data =>
          ({ st1 with
             weather := some (meteoToWeather loc data),
             lastUpdated := nowStr,
             loading := false }, 2)

/-- One point of the hourly series as rendered by the chart variant. -/
structure HourlyPoint where
  time : String
  temp : ℚ
  feelsLike : ℚ
deriving DecidableEq

/-- One entry of the forecast list inside the chart variant `Weather` record. -/
structure ForecastEntryH where
  date : String
  temp : ℚ
  description : String
  humidity : ℚ
deriving DecidableEq

/-- The `Weather` interface of the chart variant: sunrise and sunset are
pre-formatted strings, and the forecast and hourly series live inside the
record. -/
structure WeatherH where
  city : String
  temp : ℚ
  feelsLike : ℚ
  tempMin : ℚ
  tempMax : ℚ
  humidity : ℚ
  windSpeed : ℚ
  windDeg : ℚ
  pressure : ℚ
  description : String
  sunrise : String
  sunset : String
  forecast : List ForecastEntryH
  hourlyData : List HourlyPoint
deriving DecidableEq

/-- One index position of the parallel arrays `data.hourly.time`,
`data.hourly.temperature_2m`, `data.hourly.apparent_temperature`; the three
arrays (which have equal length in every well-formed response) are modelled
zipped into one list of records, and the ISO time string is modelled by the
epoch instant `ts` that `new Date(time)` would denote. -/
structure HourlyEntry where
  ts : Int
  temperature_2m : ℚ
  apparent_temperature : ℚ
deriving DecidableEq

/-- One index position of the parallel `data.daily` arrays of the chart
variant, modelled zipped like the hourly arrays. -/
structure DailyEntry where
  time : String
  temperature_2m_max : ℚ
  temperature_2m_min : ℚ
  sunrise : String
  sunset : String
  relative_humidity_2m_max : ℚ

/-- Open-Meteo response body read by the chart variant. -/
structure MeteoRespH where
  current : MeteoCurrent
  hourly : List HourlyEntry
  daily : List DailyEntry

/-- The intermediate objects of the chart variant first `.map`: formatted
label, rounded temperatures, and the raw timestamp kept for filtering. -/
structure HourlyStage where
  time : String
  temp : ℚ
  feelsLike : ℚ
  timestamp : Int

/-- First `.map` of the hourly pipeline; `hfmt` abstracts the
`toLocaleString(...).replace(...)` label formatting. -/
def hourlyStage (hfmt : Int → String) (e : HourlyEntry) : HourlyStage where
  time := hfmt e.ts
  temp := (jsRound e.temperature_2m : ℚ)
  feelsLike := (jsRound e.apparent_temperature : ℚ)
  timestamp := e.ts

/-- The composite of the two maps of the hourly pipeline on one entry. -/
def hourlyPoint (hfmt : Int → String) (e : HourlyEntry) : HourlyPoint where
  time := hfmt e.ts
  temp := (jsRound e.temperature_2m : ℚ)
  feelsLike := (jsRound e.apparent_temperature : ℚ)

/-- `hourlyData` of the chart variant: map each entry to a staged record,
keep those whose timestamp is strictly after now, drop the timestamp. -/
def hourlyData (hfmt : Int → String) (now : Int) (hourly : List HourlyEntry) :
    List HourlyPoint :=
  ((hourly.map (hourlyStage hfmt)).filter fun i => now < i.timestamp).map
    fun i => { time := i.time, temp := i.temp, feelsLike := i.feelsLike }

/-- The per-entry mapping of the chart variant 5-day forecast; `dfmt`
abstracts `new Date(date).toLocaleDateString(...)`. -/
def forecastEntryH (dfmt : String → String) (d : DailyEntry) : ForecastEntryH where
  date := dfmt d.time
  temp := (jsRound d.temperature_2m_max : ℚ)
  description := getWeatherDescriptionH d.temperature_2m_max d.relative_humidity_2m_max
  humidity := (jsRound d.relative_humidity_2m_max : ℚ)

/-- `forecast` of the chart variant: `data.daily.time.slice(0, 5).map(...)`. -/
def forecastH (dfmt : String → String) (daily : List DailyEntry) : List ForecastEntryH :=
  (daily.take 5).map (forecastEntryH dfmt)

/-- The `${location.name}${location.admin1 ? , admin1 : }, ${location.country}`
city label of the chart variant. -/
def cityLabelH (loc : GeocodingResult) : String :=
  loc.name ++ (match loc.admin1 with | some a => ", " ++ a | none => "") ++ ", " ++ loc.country

/-- The `setWeather({...})` mapping of the chart variant; `tfmt` abstracts
`new Date(iso).toLocaleTimeString(...)` for sunrise and sunset. The code
indexes the daily arrays at 0, modelled by headD on the zipped list. -/
def meteoToWeatherH (hfmt : Int → String) (dfmt : String → String)
    (tfmt : String → String) (now : Int) (loc : GeocodingResult)
    (data : MeteoRespH) : WeatherH where
  city := cityLabelH loc
  temp := (jsRound data.current.temperature_2m : ℚ)
  feelsLike := (jsRound data.current.apparent_temperature : ℚ)
  tempMin := (jsRound ((data.daily.map DailyEntry.temperature_2m_min).headD 0) : ℚ)
  tempMax := (jsRound ((data.daily.map DailyEntry.temperature_2m_max).headD 0) : ℚ)
  humidity := (jsRound data.current.relative_humidity_2m : ℚ)
  windSpeed := (jsRound data.current.wind_speed_10m : ℚ)
  windDeg := (jsRound data.current.wind_direction_10m : ℚ)
  pressure := (jsRound data.current.pressure_msl : ℚ)
  description := getWeatherDescriptionH data.current.temperature_2m data.current.relative_humidity_2m
  sunrise := tfmt ((data.daily.map DailyEntry.sunrise).headD "")
  sunset := tfmt ((data.daily.map DailyEntry.sunset).headD "")
  forecast := forecastH dfmt data.daily
  hourlyData := hourlyData hfmt now data.hourly

/-- Display state of the chart variant. -/
structure StateH where
  weather : Option WeatherH
  loading : Bool
  error : String
  lastUpdated : String
deriving DecidableEq

/-- One run of `fetchWeather` of the chart variant: empty-city guard, then the
geocoding step (non-ok status throws a status-annotated City not found, an
empty result list throws City not found in geocoding results), then the
weather step (non-ok status throws a status-annotated failure message); the
catch records the thrown message and clears the weather state to null. -/
def fetchWeatherMeteoH (city : String) (geo : Resp (List GeocodingResult))
    (wx : Resp MeteoRespH) (hfmt : Int → String) (dfmt : String → String)
    (tfmt : String → String) (now : Int) (nowStr : String) (st : StateH) :
    StateH × Nat :=
  if city = "" then (st, 0)
  else
    let st1 : StateH := { st with loading := true, error := "" }
    match geo with
    | .httpError s =>
      ({ st1 with
         error := "City not found (" ++ toString s ++ ")",
         weather := none,
         loading := false }, 1)
    | .netError m =>
      ({ st1 with error := m, weather := none, loading := false }, 1)
    | .ok results =>
      match results with
      | [] =>
        ({ st1 with
           error := "City not found in geocoding results",
           weather := none,
           loading := false }, 1)
      | loc :: _ =>
        match wx with
        | .httpError s =>
          ({ st1 with
             error := "Failed to fetch weather data (" ++ toString s ++ ")",
             weather := none,
             loading := false }, 2)
        | .netError m =>
          ({ st1 with error := m, weather := none, loading := false }, 2)
        | .ok data =>
          ({ st1 with
             weather := some (meteoToWeatherH hfmt dfmt tfmt now loc data),
             lastUpdated := nowStr,
             loading := false }, 2)

/-- JS truthiness of a possibly-undefined string value: undefined and the
empty string are falsy. -/
def jsTruthy : Option String → Bool
  | none => false
  | some s => !s.isEmpty

/-- `getApiKey` of src/config.ts: return the runtime-injected key when it is
truthy; otherwise fall back to the build-time key, warning when that one is
falsy. The Bool records whether console.warn ran. -/
def getApiKey (runtimeKey buildTimeKey : Option String) : Option String × Bool :=
  if jsTruthy runtimeKey then (runtimeKey, false)
  else (buildTimeKey, !jsTruthy buildTimeKey)

/-- Claim C2: for every real temperature and humidity, the banding is:
humidity above 80 gives the humid category regardless of temperature,
otherwise temperature above 30 gives hot, otherwise temperature below 10
gives cold, otherwise moderate — in both banding functions; and the four
concrete instances of the spec hold. -/
theorem claim2_banding : ∀ t h : ℚ,
    (h > 80 →
      getWeatherDescription t h = "Humid" ∧ getWeatherDescriptionH t h = "Overcast Clouds") ∧
    (¬ h > 80 → t > 30 →
      getWeatherDescription t h = "Hot" ∧ getWeatherDescriptionH t h = "Clear Sky") ∧
    (¬ h > 80 → ¬ t > 30 → t < 10 →
      getWeatherDescription t h = "Cold" ∧ getWeatherDescriptionH t h = "Few Clouds") ∧
    (¬ h > 80 → ¬ t > 30 → ¬ t < 10 →
      getWeatherDescription t h = "Moderate" ∧ getWeatherDescriptionH t h = "Scattered Clouds") ∧
    (getWeatherDescription 20 85 = "Humid" ∧ getWeatherDescription 35 50 = "Hot" ∧
      getWeatherDescription 5 50 = "Cold" ∧ getWeatherDescription 20 50 = "Moderate") := by
  intro t h
  refine ⟨fun h1 => ?_, fun h1 h2 => ?_, fun h1 h2 h3 => ?_, fun h1 h2 h3 => ?_, by decide⟩ <;>
    simp [getWeatherDescription, getWeatherDescriptionH, *]

/-- Witness for claim C2 at humidity 85 and temperature 20. -/
theorem claim2_banding_witness :
    getWeatherDescription 20 85 = "Humid" ∧ getWeatherDescriptionH 20 85 = "Overcast Clouds" :=
  (claim2_banding 20 85).1 (by decide)

/-- Claim C3: for every stored integer Celsius value, conversion to Fahrenheit
is JS Math.round of t * 9/5 + 32 — characterized as the unique integer within
a half-open unit window around t * 9/5 + 32 + 1/2 — and conversion to Celsius
is the identity; the chart variant conversion agrees; 0 maps to 32 and 100
maps to 212. -/
theorem claim3_convertTemp : ∀ t : Int,
    convertTemp (t : ℚ) .C = (t : ℚ) ∧
    convertTemp (t : ℚ) .F = (jsRound ((t : ℚ) * 9 / 5 + 32) : ℚ) ∧
    (∀ u : TempUnit, convertTempH u (t : ℚ) = convertTemp (t : ℚ) u) ∧
    convertTemp (t : ℚ) .F ≤ (t : ℚ) * 9 / 5 + 32 + 1/2 ∧
    (t : ℚ) * 9 / 5 + 32 + 1/2 < convertTemp (t : ℚ) .F + 1 ∧
    convertTemp 0 .F = 32 ∧ convertTemp 100 .F = 212 := by
  intro t
  refine ⟨rfl, rfl, fun u => by cases u <;> rfl, ?_, ?_, ?_, ?_⟩
  · show ((jsRound ((t : ℚ) * 9 / 5 + 32) : Int) : ℚ) ≤ _
    rw [jsRound_eq_floor]
    exact Int.floor_le _
  · show _ < ((jsRound ((t : ℚ) * 9 / 5 + 32) : Int) : ℚ) + 1
    rw [jsRound_eq_floor]
    exact Int.lt_floor_add_one _
  · show ((jsRound ((0 : ℚ) * 9 / 5 + 32) : Int) : ℚ) = 32
    rw [jsRound_eq_floor]
    norm_num
  · show ((jsRound ((100 : ℚ) * 9 / 5 + 32) : Int) : ℚ) = 212
    rw [jsRound_eq_floor]
    norm_num

/-- Claim C8: the config resolver returns the runtime-injected key whenever it
is present (truthy), otherwise falls back to the build-time key; when neither
is present it warns and returns the undefined key. -/
theorem claim8_getApiKey : ∀ r b : Option String,
    (jsTruthy r = true → getApiKey r b = (r, false)) ∧
    (jsTruthy r = false → jsTruthy b = true → getApiKey r b = (b, false)) ∧
    (jsTruthy r = false → jsTruthy b = false → getApiKey r b = (b, true)) ∧
    getApiKey none none = (none, true) := by
  intro r b
  refine ⟨fun h1 => ?_, fun h1 h2 => ?_, fun h1 h2 => ?_, rfl⟩ <;>
    simp [getApiKey, *]

/-- Witness for claim C8 with a truthy runtime key. -/
theorem claim8_getApiKey_witness :
    getApiKey (some "runtime-key") (some "build-key") = (some "runtime-key", false) :=
  (claim8_getApiKey (some "runtime-key") (some "build-key")).1 rfl

/-- Claim C9: for every temperature and humidity, the description and the icon
code land in the same band: Humid exactly when 09d, Hot exactly when 01d,
Cold exactly when 13d, Moderate exactly when 02d. -/
theorem claim9_desc_icon_agree : ∀ t h : ℚ,
    ((getWeatherDescription t h = "Humid") ↔ (getIconCode t h = "09d")) ∧
    ((getWeatherDescription t h = "Hot") ↔ (getIconCode t h = "01d")) ∧
    ((getWeatherDescription t h = "Cold") ↔ (getIconCode t h = "13d")) ∧
    ((getWeatherDescription t h = "Moderate") ↔ (getIconCode t h = "02d")) := by
  intro t h
  unfold getWeatherDescription getIconCode
  split_ifs <;> exact ⟨by decide, by decide, by decide, by decide⟩

/-- Claim C4: the rendered hourly series consists of exactly the projections
of the entries whose timestamp is strictly after now, kept in source order;
the filtered selection of a chronologically ordered source stays
chronologically ordered; and on the concrete series at now - 2h, now - 1h,
now + 1h, now + 2h only the latter two entries appear, in that order. -/
theorem claim4_hourly_filter : ∀ (hfmt : Int → String) (now : Int) (xs : List HourlyEntry),
    hourlyData hfmt now xs = (xs.filter fun e => now < e.ts).map (hourlyPoint hfmt) ∧
    ((xs.Pairwise fun a b => a.ts < b.ts) →
      ((xs.filter fun e => now < e.ts).Pairwise fun a b => a.ts < b.ts)) ∧
    ∀ t1 f1 t2 f2 t3 f3 t4 f4 : ℚ,
      hourlyData hfmt now
          [⟨now - 7200, t1, f1⟩, ⟨now - 3600, t2, f2⟩, ⟨now + 3600, t3, f3⟩,
            ⟨now + 7200, t4, f4⟩] =
        [hourlyPoint hfmt ⟨now + 3600, t3, f3⟩, hourlyPoint hfmt ⟨now + 7200, t4, f4⟩] := by
  intro hfmt now xs
  have key : ∀ ys : List HourlyEntry,
      hourlyData hfmt now ys = (ys.filter fun e => now < e.ts).map (hourlyPoint hfmt) := by
    intro ys
    unfold hourlyData
    rw [List.filter_map (hourlyStage hfmt) ys, List.map_map]
    rfl
  refine ⟨key xs, fun h => h.sublist (List.filter_sublist xs), ?_⟩
  intro t1 f1 t2 f2 t3 f3 t4 f4
  rw [key]
  have h1 : ¬ now < now - 7200 := by omega
  have h2 : ¬ now < now - 3600 := by omega
  have h3 : now < now + 3600 := by omega
  have h4 : now < now + 7200 := by omega
  simp [List.filter, h1, h2, h3, h4]

/-- Witness for claim C4: the filtered selection of a concrete chronologically
ordered series is chronologically ordered. -/
theorem claim4_hourly_filter_witness :
    (([⟨-7200, 1, 1⟩, ⟨-3600, 2, 2⟩, ⟨3600, 3, 3⟩, ⟨7200, 4, 4⟩] :
        List HourlyEntry).filter fun e => (0 : Int) < e.ts).Pairwise
      (fun a b => a.ts < b.ts) :=
  (claim4_hourly_filter (fun _ => "") 0
      [⟨-7200, 1, 1⟩, ⟨-3600, 2, 2⟩, ⟨3600, 3, 3⟩, ⟨7200, 4, 4⟩]).2.1 (by decide)

/-- Claim C5: in both Open-Meteo variants, an empty geocoding result list ends
the cycle in the error state with a city-not-found message and a null weather
state, and when the result list is non-empty the first candidate is the one
used, whatever follows it. -/
theorem claim5_geocoding : ∀ city : String, city ≠ "" →
    ∀ (st : StateM) (stH : StateH) (nowStr : String) (hfmt : Int → String)
      (dfmt tfmt : String → String) (now : Int),
    (∀ wx : Resp MeteoRespV2,
      (fetchWeatherMeteo city (.ok []) wx nowStr st).1.weather = none ∧
      (fetchWeatherMeteo city (.ok []) wx nowStr st).1.error = "City not found") ∧
    (∀ wx : Resp MeteoRespH,
      (fetchWeatherMeteoH city (.ok []) wx hfmt dfmt tfmt now nowStr stH).1.weather = none ∧
      (fetchWeatherMeteoH city (.ok []) wx hfmt dfmt tfmt now nowStr stH).1.error =
        "City not found in geocoding results") ∧
    (∀ (loc : GeocodingResult) (rest : List GeocodingResult) (data : MeteoRespV2),
      (fetchWeatherMeteo city (.ok (loc :: rest)) (.ok data) nowStr st).1.weather =
        some (meteoToWeather loc data)) ∧
    (∀ (loc : GeocodingResult) (rest : List GeocodingResult) (data : MeteoRespH),
      (fetchWeatherMeteoH city (.ok (loc :: rest)) (.ok data) hfmt dfmt tfmt now
          nowStr stH).1.weather =
        some (meteoToWeatherH hfmt dfmt tfmt now loc data)) := by
  intro city hc st stH nowStr hfmt dfmt tfmt now
  refine ⟨fun wx => ?_, fun wx => ?_, fun loc rest data => ?_, fun loc rest data => ?_⟩ <;>
    simp [fetchWeatherMeteo, fetchWeatherMeteoH, hc]

/-- Witness for claim C5: concrete empty geocoding result under the first
Open-Meteo variant. -/
theorem claim5_geocoding_witness :
    (fetchWeatherMeteo "London" (.ok []) (.httpError 500) ""
        ⟨none, false, "", ""⟩).1.weather = none :=
  ((claim5_geocoding "London" (by decide) ⟨none, false, "", ""⟩
      ⟨none, false, "", ""⟩ "" (fun _ => "") (fun _ => "") (fun _ => "") 0).1
    (.httpError 500)).1

/-- Claim C10: in both variants that derive a multi-day forecast, the derived
list is the image of an order-preserving selection (a sublist) of the source
list, and it has at most five entries. -/
theorem claim10_forecast : ∀ (dfmtI : Int → String) (l : List OwmForecastItem)
    (dfmt : String → String) (d : List DailyEntry),
    processOwmForecast dfmtI l = (owmSelectForecast l).map (owmForecastEntry dfmtI) ∧
    List.Sublist (owmSelectForecast l) l ∧
    (processOwmForecast dfmtI l).length ≤ 5 ∧
    forecastH dfmt d = (d.take 5).map (forecastEntryH dfmt) ∧
    List.Sublist (d.take 5) d ∧
    (forecastH dfmt d).length ≤ 5 := by
  intro dfmtI l dfmt d
  refine ⟨rfl, (List.take_sublist 5 _).trans (List.filter_sublist l), ?_, rfl,
    List.take_sublist 5 d, ?_⟩
  · simp [processOwmForecast, owmSelectForecast, List.length_take]
  · simp [forecastH, List.length_take]

/-- A concrete stored weather snapshot, used as the prior state of the
counterexample cycles. -/
def wSample : Weather where
  city := "London"
  temp := 20
  feelsLike := 19
  tempMin := 18
  tempMax := 22
  humidity := 50
  windSpeed := 3
  windDeg := 90
  pressure := 1013
  visibility := 10
  description := "clear sky"
  icon := "01d"
  sunrise := 0
  sunset := 0

/-- OpenWeatherMap-variant state holding the sample snapshot with no error. -/
def stV1Sample : StateV1 := ⟨some wSample, [], false, "", ""⟩

/-- OpenWeatherMap-variant state with nothing loaded yet. -/
def stV1Empty : StateV1 := ⟨none, [], false, "", ""⟩

/-- Counterexample to claim C1: in the OpenWeatherMap variant a failing first
request records the error string but does not clear the previously stored
snapshot — the weather state stays the prior snapshot instead of becoming
null. -/
theorem claim1_counterexample :
    (fetchWeatherOwm "London" (.httpError 500) (.httpError 500) (fun _ => "")
        "now" stV1Sample).1.weather = some wSample ∧
    some wSample ≠ (none : Option Weather) ∧
    (fetchWeatherOwm "London" (.httpError 500) (.httpError 500) (fun _ => "")
        "now" stV1Sample).1.error = "Failed to fetch weather data. Please try again." := by
  exact ⟨rfl, by simp, rfl⟩

/-- Claim C1 amended: in the two Open-Meteo variants any failure in either
network step clears the snapshot to null and records the error message of the
failing step; in the OpenWeatherMap variant a failure records the fixed error
message and aborts the cycle but never clears the weather state — a first-step
failure leaves the previous snapshot and a forecast-step failure leaves the
just-stored snapshot. -/
theorem claim1_amended : ∀ city : String, city ≠ "" →
    ∀ (st : StateM) (stH : StateH) (stV1 : StateV1) (nowStr : String)
      (hfmt dfmtI : Int → String) (dfmt tfmt : String → String) (now : Int),
    (∀ (s : Nat) (wx : Resp MeteoRespV2),
      (fetchWeatherMeteo city (.httpError s) wx nowStr st).1.weather = none ∧
      (fetchWeatherMeteo city (.httpError s) wx nowStr st).1.error = "City not found") ∧
    (∀ (m : String) (wx : Resp MeteoRespV2),
      (fetchWeatherMeteo city (.netError m) wx nowStr st).1.weather = none ∧
      (fetchWeatherMeteo city (.netError m) wx nowStr st).1.error = m) ∧
    (∀ wx : Resp MeteoRespV2,
      (fetchWeatherMeteo city (.ok []) wx nowStr st).1.weather = none ∧
      (fetchWeatherMeteo city (.ok []) wx nowStr st).1.error = "City not found") ∧
    (∀ (loc : GeocodingResult) (rest : List GeocodingResult) (s : Nat),
      (fetchWeatherMeteo city (.ok (loc :: rest)) (.httpError s) nowStr st).1.weather = none ∧
      (fetchWeatherMeteo city (.ok (loc :: rest)) (.httpError s) nowStr st).1.error =
        "Failed to fetch weather data") ∧
    (∀ (loc : GeocodingResult) (rest : List GeocodingResult) (m : String),
      (fetchWeatherMeteo city (.ok (loc :: rest)) (.netError m) nowStr st).1.weather = none ∧
      (fetchWeatherMeteo city (.ok (loc :: rest)) (.netError m) nowStr st).1.error = m) ∧
    (∀ (s : Nat) (wx : Resp MeteoRespH),
      (fetchWeatherMeteoH city (.httpError s) wx hfmt dfmt tfmt now nowStr stH).1.weather =
        none ∧
      (fetchWeatherMeteoH city (.httpError s) wx hfmt dfmt tfmt now nowStr stH).1.error =
        "City not found (" ++ toString s ++ ")") ∧
    (∀ (m : String) (wx : Resp MeteoRespH),
      (fetchWeatherMeteoH city (.netError m) wx hfmt dfmt tfmt now nowStr stH).1.weather =
        none ∧
      (fetchWeatherMeteoH city (.netError m) wx hfmt dfmt tfmt now nowStr stH).1.error = m) ∧
    (∀ wx : Resp MeteoRespH,
      (fetchWeatherMeteoH city (.ok []) wx hfmt dfmt tfmt now nowStr stH).1.weather = none ∧
      (fetchWeatherMeteoH city (.ok []) wx hfmt dfmt tfmt now nowStr stH).1.error =
        "City not found in geocoding results") ∧
    (∀ (loc : GeocodingResult) (rest : List GeocodingResult) (s : Nat),
      (fetchWeatherMeteoH city (.ok (loc :: rest)) (.httpError s) hfmt dfmt tfmt now
          nowStr stH).1.weather = none ∧
      (fetchWeatherMeteoH city (.ok (loc :: rest)) (.httpError s) hfmt dfmt tfmt now
          nowStr stH).1.error = "Failed to fetch weather data (" ++ toString s ++ ")") ∧
    (∀ (loc : GeocodingResult) (rest : List GeocodingResult) (m : String),
      (fetchWeatherMeteoH city (.ok (loc :: rest)) (.netError m) hfmt dfmt tfmt now
          nowStr stH).1.weather = none ∧
      (fetchWeatherMeteoH city (.ok (loc :: rest)) (.netError m) hfmt dfmt tfmt now
          nowStr stH).1.error = m) ∧
    (∀ (s : Nat) (fr : Resp (List OwmForecastItem)),
      (fetchWeatherOwm city (.httpError s) fr dfmtI nowStr stV1).1.weather = stV1.weather ∧
      (fetchWeatherOwm city (.httpError s) fr dfmtI nowStr stV1).1.error =
        "Failed to fetch weather data. Please try again.") ∧
    (∀ (m : String) (fr : Resp (List OwmForecastItem)),
      (fetchWeatherOwm city (.netError m) fr dfmtI nowStr stV1).1.weather = stV1.weather ∧
      (fetchWeatherOwm city (.netError m) fr dfmtI nowStr stV1).1.error =
        "Failed to fetch weather data. Please try again.") ∧
    (∀ (data : OwmCurrentResp) (s : Nat),
      (fetchWeatherOwm city (.ok data) (.httpError s) dfmtI nowStr stV1).1.weather =
        some (owmToWeather data) ∧
      (fetchWeatherOwm city (.ok data) (.httpError s) dfmtI nowStr stV1).1.error =
        "Failed to fetch weather data. Please try again.") := by
  intro city hc st stH stV1 nowStr hfmt dfmtI dfmt tfmt now
  refine ⟨fun s wx => ?_, fun m wx => ?_, fun wx => ?_, fun loc rest s => ?_,
    fun loc rest m => ?_, fun s wx => ?_, fun m wx => ?_, fun wx => ?_,
    fun loc rest s => ?_, fun loc rest m => ?_, fun s fr => ?_, fun m fr => ?_,
    fun data s => ?_⟩ <;>
    simp [fetchWeatherMeteo, fetchWeatherMeteoH, fetchWeatherOwm, hc]

/-- Witness for the amended claim C1: a concrete failing geocoding request of
the first Open-Meteo variant clears the weather state. -/
theorem claim1_amended_witness :
    (fetchWeatherMeteo "London" (.httpError 500) (.httpError 500) ""
        ⟨some wSample, false, "", ""⟩).1.weather = none :=
  ((claim1_amended "London" (by decide) ⟨some wSample, false, "", ""⟩
      ⟨none, false, "", ""⟩ stV1Sample "" (fun _ => "") (fun _ => "")
      (fun _ => "") (fun _ => "") 0).1 500 (.httpError 500)).1

/-- An OpenWeatherMap current-weather response whose pressure is fractional. -/
def owmFracSample : OwmCurrentResp where
  name := "Testville"
  main := ⟨21.4, 20, 19, 23, 50, 1013.4⟩
  wind := ⟨3, 90⟩
  visibility := 10000
  weather0 := ⟨"clear sky", "01d"⟩
  sys := ⟨0, 0⟩

/-- Counterexample to claim C6: in the OpenWeatherMap variant the pressure
field of the snapshot is the verbatim source value, so for a source pressure
of 1013.4 hPa the stored pressure is 1013.4, not the rounded 1013. -/
theorem claim6_counterexample :
    (owmToWeather owmFracSample).pressure = (1013.4 : ℚ) ∧
    (jsRound (1013.4 : ℚ) : ℚ) = 1013 ∧
    (owmToWeather owmFracSample).pressure ≠ (jsRound owmFracSample.main.pressure : ℚ) := by
  have h : (jsRound (1013.4 : ℚ) : ℚ) = 1013 := by
    rw [jsRound_eq_floor]; norm_num
  refine ⟨rfl, h, ?_⟩
  show (1013.4 : ℚ) ≠ (jsRound (1013.4 : ℚ) : ℚ)
  rw [h]; norm_num

/-- Claim C6 amended: in every variant the snapshot temperature and wind-speed
fields are the source values rounded to the nearest integer; the pressure
field is rounded in both Open-Meteo variants but transcribed verbatim without
rounding in the OpenWeatherMap variant; and a source current temperature of
21.4 degrees is stored as 21. -/
theorem claim6_amended : ∀ (d : OwmCurrentResp) (loc loc2 : GeocodingResult)
    (m : MeteoRespV2) (mh : MeteoRespH) (hfmt : Int → String)
    (dfmt tfmt : String → String) (now : Int),
    (owmToWeather d).temp = (jsRound d.main.temp : ℚ) ∧
    (owmToWeather d).windSpeed = (jsRound d.wind.speed : ℚ) ∧
    (owmToWeather d).pressure = d.main.pressure ∧
    (meteoToWeather loc m).temp = (jsRound m.current.temperature_2m : ℚ) ∧
    (meteoToWeather loc m).windSpeed = (jsRound m.current.wind_speed_10m : ℚ) ∧
    (meteoToWeather loc m).pressure = (jsRound m.current.pressure_msl : ℚ) ∧
    (meteoToWeatherH hfmt dfmt tfmt now loc2 mh).temp =
      (jsRound mh.current.temperature_2m : ℚ) ∧
    (meteoToWeatherH hfmt dfmt tfmt now loc2 mh).windSpeed =
      (jsRound mh.current.wind_speed_10m : ℚ) ∧
    (meteoToWeatherH hfmt dfmt tfmt now loc2 mh).pressure =
      (jsRound mh.current.pressure_msl : ℚ) ∧
    jsRound (21.4 : ℚ) = 21 := by
  intro d loc loc2 m mh hfmt dfmt tfmt now
  refine ⟨rfl, rfl, rfl, rfl, rfl, rfl, rfl, rfl, rfl, ?_⟩
  rw [jsRound_eq_floor]; norm_num

/-- Counterexample to claim C7: in the OpenWeatherMap variant an empty city
string is not skipped — the fetch proceeds, a request is issued, and the error
state changes from empty to the fixed failure message. -/
theorem claim7_counterexample :
    (fetchWeatherOwm "" (.httpError 400) (.httpError 400) (fun _ => "")
        "now" stV1Empty).2 = 1 ∧
    (fetchWeatherOwm "" (.httpError 400) (.httpError 400) (fun _ => "")
        "now" stV1Empty).1.error ≠ stV1Empty.error := by
  exact ⟨rfl, by decide⟩

/-- Claim C7 amended: in the two Open-Meteo variants an empty city string makes
fetchWeather return before anything happens — no request is issued and every
piece of display state is unchanged; the OpenWeatherMap variant has no
empty-city guard and always issues at least one request. -/
theorem claim7_amended : ∀ (geo : Resp (List GeocodingResult)) (wx : Resp MeteoRespV2)
    (wxH : Resp MeteoRespH) (nowStr : String) (st : StateM) (stH : StateH)
    (stV1 : StateV1) (hfmt dfmtI : Int → String) (dfmt tfmt : String → String)
    (now : Int) (cr : Resp OwmCurrentResp) (fr : Resp (List OwmForecastItem)),
    fetchWeatherMeteo "" geo wx nowStr st = (st, 0) ∧
    fetchWeatherMeteoH "" geo wxH hfmt dfmt tfmt now nowStr stH = (stH, 0) ∧
    1 ≤ (fetchWeatherOwm "" cr fr dfmtI nowStr stV1).2 := by
  intro geo wx wxH nowStr st stH stV1 hfmt dfmtI dfmt tfmt now cr fr
  refine ⟨rfl, rfl, ?_⟩
  cases cr <;> cases fr <;> simp [fetchWeatherOwm]

end WeatherDash
